import Mathlib

set_option linter.unusedVariables false

/-!
Verification development for the bedtime-story refinement pipeline
(`src/main.py`).  The Python program is shallowly embedded below:

* JSON values are modelled by the inductive type `Json`; the Python
  `json.loads` call is modelled by the executable recursive-descent
  function `loads` (integers, strings, booleans, null, arrays, objects;
  floating-point numbers are outside the modelled fragment and are
  treated as parse failures, and string escapes follow the JSON grammar).
* The OpenAI gateway `call_model` is modelled as an environment: a
  `World` carrying a response oracle `responses : Nat → String → String`
  (reply of the n-th gateway call as a function of the prompt) together
  with a call counter and two ghost counters (`evals`, `revs`) that count
  `judge_story` and `revise_story` invocations for the theorems below.
* Each Python function (`parse_judge_response`, `generate_initial_story`,
  `judge_story`, `revise_story`, `story_pipeline` and the human-feedback
  loop of `main`) is translated to a Lean definition of the same name.
-/

namespace BedtimeStory

/-- JSON values as returned by the modelled `json.loads`. -/
inductive Json where
  | null : Json
  | bool (b : Bool) : Json
  | num (n : Int) : Json
  | str (s : String) : Json
  | arr (elems : List Json) : Json
  | obj (members : List (String × Json)) : Json

/-- The character `\x7b` (left curly brace). -/
def lbrace : Char := Char.ofNat 123

/-- The character `\x7d` (right curly brace). -/
def rbrace : Char := Char.ofNat 125

/-- JSON whitespace characters (space, tab, newline, carriage return). -/
def jsonWs (c : Char) : Bool := c = ' ' || c = '\t' || c = '\n' || c = '\r'

/-- Drop leading JSON whitespace. -/
def skipWs : List Char → List Char
  | [] => []
  | c :: cs => if jsonWs c then skipWs cs else c :: cs

/-- Value of one hexadecimal digit. -/
def hexVal (c : Char) : Option Nat :=
  if '0' ≤ c ∧ c ≤ '9' then some (c.toNat - 48)
  else if 'a' ≤ c ∧ c ≤ 'f' then some (c.toNat - 87)
  else if 'A' ≤ c ∧ c ≤ 'F' then some (c.toNat - 55)
  else none

/-- Parse the body of a JSON string (the opening quote already consumed);
returns the decoded characters and the remaining input. -/
def parseStrChars : List Char → Option (List Char × List Char)
  | [] => none
  | c :: cs =>
    if c = '"' then some ([], cs)
    else if c = '\\' then
      match cs with
      | [] => none
      | e :: cs2 =>
        if e = '"' || e = '\\' || e = '/' then
          (parseStrChars cs2).map (fun p => (e :: p.1, p.2))
        else if e = 'n' then (parseStrChars cs2).map (fun p => ('\n' :: p.1, p.2))
        else if e = 't' then (parseStrChars cs2).map (fun p => ('\t' :: p.1, p.2))
        else if e = 'r' then (parseStrChars cs2).map (fun p => ('\r' :: p.1, p.2))
        else if e = 'b' then (parseStrChars cs2).map (fun p => (Char.ofNat 8 :: p.1, p.2))
        else if e = 'f' then (parseStrChars cs2).map (fun p => (Char.ofNat 12 :: p.1, p.2))
        else if e = 'u' then
          match cs2 with
          | h1 :: h2 :: h3 :: h4 :: cs3 =>
            match hexVal h1, hexVal h2, hexVal h3, hexVal h4 with
            | some a, some b, some c3, some d =>
              (parseStrChars cs3).map
                (fun p => (Char.ofNat (4096 * a + 256 * b + 16 * c3 + d) :: p.1, p.2))
            | _, _, _, _ => none
          | _ => none
        else none
    else if c.toNat < 32 then none
    else (parseStrChars cs).map (fun p => (c :: p.1, p.2))

/-- Split a leading run of decimal digits from the input. -/
def takeDigits : List Char → (List Char × List Char)
  | [] => ([], [])
  | c :: cs =>
    if c.isDigit then
      let p := takeDigits cs
      (c :: p.1, p.2)
    else ([], c :: cs)

/-- Numeric value of a digit string. -/
def digitsToNat (ds : List Char) : Nat :=
  ds.foldl (fun a c => 10 * a + (c.toNat - 48)) 0

/-- Parse a JSON integer (sign already consumed when `neg`); a fractional
part or exponent makes the whole parse fail (floats are outside the
modelled fragment, mirroring that no claim exercises them). -/
def parseNum (neg : Bool) (cs : List Char) : Option (Json × List Char) :=
  let p := takeDigits cs
  if p.1 = [] then none
  else
    let n : Int := digitsToNat p.1
    let v : Json := Json.num (if neg then -n else n)
    match p.2 with
    | [] => some (v, [])
    | c :: _ => if c = '.' || c = 'e' || c = 'E' then none else some (v, p.2)

/-- Strip an expected literal run of characters. -/
def stripPre : List Char → List Char → Option (List Char)
  | [], cs => some cs
  | p :: ps, c :: cs => if c = p then stripPre ps cs else none
  | _ :: _, [] => none

mutual

/-- Parse one JSON value (fuel-indexed recursive descent). -/
def parseVal : Nat → List Char → Option (Json × List Char)
  | 0, _ => none
  | f + 1, cs =>
    match skipWs cs with
    | [] => none
    | c :: rest =>
      if c = '"' then (parseStrChars rest).map (fun p => (Json.str p.1.asString, p.2))
      else if c = lbrace then
        match skipWs rest with
        | d :: r2 =>
          if d = rbrace then some (Json.obj [], r2)
          else (parseObj f rest).map (fun p => (Json.obj p.1, p.2))
        | [] => none
      else if c = '[' then
        match skipWs rest with
        | d :: r2 =>
          if d = ']' then some (Json.arr [], r2)
          else (parseArr f rest).map (fun p => (Json.arr p.1, p.2))
        | [] => none
      else if c = 't' then (stripPre "rue".toList rest).map (fun r => (Json.bool true, r))
      else if c = 'f' then (stripPre "alse".toList rest).map (fun r => (Json.bool false, r))
      else if c = 'n' then (stripPre "ull".toList rest).map (fun r => (Json.null, r))
      else if c = '-' then parseNum true rest
      else if c.isDigit then parseNum false (c :: rest)
      else none

/-- Parse the members of a JSON object (input positioned on the first key). -/
def parseObj : Nat → List Char → Option (List (String × Json) × List Char)
  | 0, _ => none
  | f + 1, cs =>
    match skipWs cs with
    | q :: r0 =>
      if q = '"' then
        match parseStrChars r0 with
        | none => none
        | some (kcs, r1) =>
          match skipWs r1 with
          | c :: r2 =>
            if c = ':' then
              match parseVal f r2 with
              | none => none
              | some (v, r3) =>
                match skipWs r3 with
                | c2 :: r4 =>
                  if c2 = ',' then
                    match parseObj f r4 with
                    | none => none
                    | some (ms, r5) => some ((kcs.asString, v) :: ms, r5)
                  else if c2 = rbrace then some ([(kcs.asString, v)], r4)
                  else none
                | [] => none
            else none
          | [] => none
      else none
    | [] => none

/-- Parse the elements of a JSON array (input positioned on the first element). -/
def parseArr : Nat → List Char → Option (List Json × List Char)
  | 0, _ => none
  | f + 1, cs =>
    match parseVal f cs with
    | none => none
    | some (v, r1) =>
      match skipWs r1 with
      | c :: r2 =>
        if c = ',' then
          match parseArr f r2 with
          | none => none
          | some (vs, r3) => some (v :: vs, r3)
        else if c = ']' then some ([v], r2)
        else none
      | [] => none

end

/-- Model of Python `json.loads`: parse exactly one JSON value with only
whitespace around it (Python raises on trailing data); `none` models a
raised `JSONDecodeError`. -/
def loads (s : String) : Option Json :=
  match parseVal (s.length + 1) s.toList with
  | some (j, rest) => if skipWs rest = [] then some j else none
  | none => none

/-- Model of Python `str.index(ch)`: index of the first occurrence, `none`
modelling the raised `ValueError` when absent. -/
def pyIndex : List Char → Char → Option Nat
  | [], _ => none
  | c :: cs, t => if c = t then some 0 else (pyIndex cs t).map (· + 1)

/-- Model of Python `str.rfind(ch)`: index of the last occurrence, `none`
standing for Python's `-1` result. -/
def pyRfind : List Char → Char → Option Nat
  | [], _ => none
  | c :: cs, t =>
    match pyRfind cs t with
    | some n => some (n + 1)
    | none => if c = t then some 0 else none

/-- The fixed fallback record of `parse_judge_response` (src/main.py lines
163-174). -/
def judgeFallback : Json :=
  Json.obj
    [("clarity", Json.num 0),
     ("age_appropriateness", Json.num 0),
     ("emotional_safety", Json.num 0),
     ("creativity", Json.num 0),
     ("narrative_structure", Json.num 0),
     ("total_score", Json.num 0),
     ("issues", Json.arr [Json.str "Could not parse judge response as JSON."]),
     ("suggested_fixes",
      Json.arr [Json.str "Regenerate the story with clearer structure, simpler language, and explicit moral."])]

/-- The brace-delimited candidate substring `raw[start:end + 1]` computed by
`parse_judge_response` (src/main.py lines 158-160): `start` is the index of
the first `\x7b` (`none` when `raw.index` would raise, which the
`except` clause turns into the fallback), `end` is the index of the last
`\x7d` or `-1` when absent, and Python slice semantics clamp an empty
range to the empty string. -/
def jsonCandidate (raw : String) : Option String :=
  match pyIndex raw.toList lbrace with
  | none => none
  | some start =>
    let e : Int :=
      match pyRfind raw.toList rbrace with
      | some n => (n : Int)
      | none => -1
    some (((raw.toList.drop start).take (e + 1 - (start : Int)).toNat).asString)

/-- Translation of `parse_judge_response` (src/main.py lines 146-174): slice
between the first `\x7b` and the last `\x7d`, `json.loads` the slice, and on
any failure return the fixed fallback record. -/
def parse_judge_response (raw : String) : Json :=
  match jsonCandidate raw with
  | none => judgeFallback
  | some s =>
    match loads s with
    | some j => j
    | none => judgeFallback

/-- Model of Python `judge_data.get(key)` on the parsed JSON value.  For an
object, the last binding of the key wins (Python's dict built by
`json.loads` keeps the last duplicate).  A non-dict value has no `.get`
in Python (it would raise `AttributeError`); no claim exercises that case
and it is modelled as the key being absent. -/
def pyGet (j : Json) (key : String) : Option Json :=
  match j with
  | Json.obj kvs => kvs.foldl (fun acc kv => if kv.1 = key then some kv.2 else acc) none
  | _ => none

/-- Model of `judge_data.get("total_score", 0)` as used in the integer
comparison of the refinement loop (src/main.py line 225).  A present but
non-integer score would make Python's `<` raise; that case is outside the
modelled scope and reads as the default. -/
def get_total_score (judge_data : Json) : Int :=
  match pyGet judge_data "total_score" with
  | some (Json.num n) => n
  | _ => 0

/-- Model of `judge_data.get(key, [])` for the two list-valued fields
(src/main.py lines 193-195): absent key defaults to the empty list. -/
def pyGetList (judge_data : Json) (key : String) : List Json :=
  match pyGet judge_data key with
  | some (Json.arr xs) => xs
  | _ => []

/-- Python `str()` conversion used by the f-string `f"- \x7bi\x7d"`; list
entries are strings in every modelled run, the other cases approximate
Python's rendering. -/
def pyToStr : Json → String
  | Json.str s => s
  | Json.num n => toString n
  | Json.bool true => "True"
  | Json.bool false => "False"
  | Json.null => "None"
  | Json.arr _ => "[...]"
  | Json.obj _ => "\x7b...\x7d"

/-- Python `a or b` on strings: `b` when `a` is empty (falsy). -/
def pyOrStr (a b : String) : String := if a = "" then b else a

/-- Whitespace stripped by Python `str.strip()` (ASCII fragment: space,
tab, newline, carriage return, vertical tab, form feed; exotic Unicode
spaces are outside the modelled scope). -/
def pyStripWs (c : Char) : Bool :=
  c = ' ' || c = '\t' || c = '\n' || c = '\r' || c = Char.ofNat 11 || c = Char.ofNat 12

/-- Model of Python `str.strip()`: drop whitespace from both ends. -/
def pyStrip (s : String) : String :=
  (((s.toList.dropWhile pyStripWs).reverse.dropWhile pyStripWs).reverse).asString

/-- The `STORY_WRITER_PROMPT` template (src/main.py lines 40-57) after
`.format(user_request=...)`. -/
def STORY_WRITER_PROMPT (user_request : String) : String :=
  "\nYou are an expert children\x27s author.\n\nWrite a bedtime story for a child aged between 5 and 10 years old.\n\nRequirements:\n- The story must be gentle, kind, and emotionally safe.\n- Use simple, concrete language that a 2ndâ€“4th grader can understand.\n- Length: about 350â€“600 words.\n- Clear beginning, middle, and end.\n- A small, non-scary problem that gets resolved positively.\n- Include a short 1â€“2 sentence moral at the end starting with \"Moral:\".\n\nThe child\x27s story request is:\n\"" ++ user_request ++ "\"\n\nNow write ONLY the story. Do not add any explanation or commentary.\n"

/-- The `JUDGE_PROMPT` template (src/main.py lines 60-91) after
`.format(story=...)`; the doubled braces of the Python literal render as
single braces. -/
def JUDGE_PROMPT (story : String) : String :=
  "\nYou are a strict but kind editorial judge for children\x27s bedtime stories (ages 5â€“10).\n\nYour job is to review the story below and return a JSON object ONLY, with no extra text.\n\nEvaluate the story on:\n- clarity (0â€“10)\n- age_appropriateness (0â€“10)\n- emotional_safety (0â€“10)\n- creativity (0â€“10)\n- narrative_structure (0â€“10)\n\nAlso include:\n- total_score: sum of the five scores\n- issues: a short list of strings describing concrete problems\n- suggested_fixes: a short list of specific, actionable improvements\n\nReturn JSON in this format ONLY:\n\x7b\n  \"clarity\": 9,\n  \"age_appropriateness\": 10,\n  \"emotional_safety\": 9,\n  \"creativity\": 8,\n  \"narrative_structure\": 9,\n  \"total_score\": 45,\n  \"issues\": [\"issue 1\", \"issue 2\"],\n  \"suggested_fixes\": [\"fix 1\", \"fix 2\"]\n\x7d\n\nHere is the story to judge:\n\"\"\"" ++ story ++ "\"\"\"\n"

/-- The `REVISION_PROMPT` template (src/main.py lines 94-115) after
`.format(story=..., issues=..., fixes=...)`. -/
def REVISION_PROMPT (story issues fixes : String) : String :=
  "\nYou are revising a children\x27s bedtime story for ages 5â€“10.\n\nOriginal story:\n\"\"\"" ++ story ++ "\"\"\"\n\nFeedback from a quality judge:\n\nIssues:\n" ++ issues ++ "\n\nSuggested fixes:\n" ++ fixes ++ "\n\nRewrite the story to address this feedback while:\n- Keeping it between 350â€“600 words\n- Preserving the core theme and characters\n- Making it even clearer, kinder, and more engaging\n- Ending with a short moral that starts with \"Moral:\"\n\nReturn ONLY the improved story, with no explanation or comments.\n"

/-- The `USER_FEEDBACK_PROMPT` template (src/main.py lines 118-134) after
`.format(story=..., feedback=...)`. -/
def USER_FEEDBACK_PROMPT (story feedback : String) : String :=
  "\nYou are a children\x27s story rewriter.\n\nHere is the current story:\n\"\"\"" ++ story ++ "\"\"\"\n\nHere is additional feedback from the human reader:\n\"\"\"" ++ feedback ++ "\"\"\"\n\nRewrite the story to incorporate this feedback while:\n- Keeping it appropriate and emotionally safe for ages 5â€“10\n- Keeping roughly the same length\n- Keeping a clear beginning, middle, and end\n- Ending with a moral starting with \"Moral:\"\n\nReturn ONLY the new story.\n"

/-- The bullet flattening of `evaluation.issues` performed by `revise_story`
(src/main.py line 193): one `- item` line per entry. -/
def issues_text (judge_data : Json) : String :=
  String.intercalate "\n" ((pyGetList judge_data "issues").map (fun i => "- " ++ pyToStr i))

/-- The bullet flattening of `evaluation.suggested_fixes` performed by
`revise_story` (src/main.py lines 194-195). -/
def fixes_text (judge_data : Json) : String :=
  String.intercalate "\n" ((pyGetList judge_data "suggested_fixes").map (fun f => "- " ++ pyToStr f))

/-- The revision prompt built by `revise_story` (src/main.py lines 197-201):
empty bullet blocks are replaced by the fixed placeholder lines via Python
`or`. -/
def revise_prompt (story : String) (judge_data : Json) : String :=
  REVISION_PROMPT story
    (pyOrStr (issues_text judge_data) "- (no issues listed)")
    (pyOrStr (fixes_text judge_data) "- (no fixes listed)")

/-- State of the external world threaded through the embedded program: the
gateway is an oracle giving the reply of the n-th `call_model` invocation
as a function of its prompt, `calls` counts gateway invocations, and
`evals` / `revs` are ghost instrumentation counting `judge_story` and
`revise_story` calls (they influence nothing). -/
structure World where
  responses : Nat → String → String
  calls : Nat
  evals : Nat
  revs : Nat

/-- Translation of `call_model` (src/main.py lines 24-35): one blocking
gateway invocation, consuming the next oracle reply.  The sampling
parameters are carried for faithfulness but do not influence the model. -/
def call_model (w : World) (prompt : String) (max_tokens : Nat := 3000)
    (temperature : ℚ := 1 / 10) : String × World :=
  (w.responses w.calls prompt, { w with calls := w.calls + 1 })

/-- Translation of `generate_initial_story` (src/main.py lines 137-143). -/
def generate_initial_story (w : World) (user_request : String) : String × World :=
  call_model w (STORY_WRITER_PROMPT user_request) 900 (8 / 10)

/-- Translation of `judge_story` (src/main.py lines 177-183); the ghost
`evals` counter records that one evaluation happened. -/
def judge_story (w : World) (story : String) : Json × World :=
  let r := call_model w (JUDGE_PROMPT story) 600 (2 / 10)
  (parse_judge_response r.1, { r.2 with evals := r.2.evals + 1 })

/-- Translation of `revise_story` (src/main.py lines 186-202); the ghost
`revs` counter records that one revision happened. -/
def revise_story (w : World) (story : String) (judge_data : Json) : String × World :=
  let r := call_model w (revise_prompt story judge_data) 900 (7 / 10)
  (r.1, { r.2 with revs := r.2.revs + 1 })

/-- Translation of the `while` loop of `story_pipeline` (src/main.py lines
224-233).  The loop is guarded by `total_score < min_score` and
`round_idx < max_rounds`; the structural `fuel` argument only bounds the
recursion and `story_pipeline` passes `max_rounds` for it, which the
theorems below prove is never exhausted before the guard fails. -/
def story_pipeline_loop (fuel : Nat) (w : World) (min_score : Int) (max_rounds : Nat)
    (story : String) (judge_data : Json) (round_idx : Nat) : String × Json × World :=
  match fuel with
  | 0 => (story, judge_data, w)
  | f + 1 =>
    if get_total_score judge_data < min_score ∧ round_idx < max_rounds then
      let r := revise_story w story judge_data
      let j := judge_story r.2 r.1
      story_pipeline_loop f j.2 min_score max_rounds r.1 j.1 (round_idx + 1)
    else (story, judge_data, w)

/-- Translation of `story_pipeline` (src/main.py lines 205-235): initial
draft, first evaluation, then the refinement loop starting at round 1.
The returned triple is (final story, final judge record, final world). -/
def story_pipeline (w : World) (user_request : String) (min_score : Int := 40)
    (max_rounds : Nat := 3) : String × Json × World :=
  let g := generate_initial_story w user_request
  let j := judge_story g.2 g.1
  story_pipeline_loop max_rounds j.2 min_score max_rounds g.1 j.1 1

/-- Translation of the human-feedback loop of `main` (src/main.py lines
286-322): `inputs` models the successive `input()` results; an empty
(post-`strip`) line terminates the session with the current pair; a
non-empty line triggers one `call_model` rewrite and one `judge_story`
evaluation, replacing the current pair.  An exhausted input list models
`input()` raising `EOFError`, returned as `none`. -/
def feedback_loop (w : World) (inputs : List String) (current_story : String)
    (current_judge_data : Json) : Option (String × Json × World) :=
  match inputs with
  | [] => none
  | fb :: rest =>
    let user_feedback := pyStrip fb
    if user_feedback = "" then some (current_story, current_judge_data, w)
    else
      let u := call_model w (USER_FEEDBACK_PROMPT current_story user_feedback) 900 (7 / 10)
      let j := judge_story u.2 u.1
      feedback_loop j.2 rest u.1 j.1

/-- The (infinite) trace of rounds of `story_pipeline` run in the world
whose oracle is `resp` starting with zero calls: component `i` (0-based)
is the story and judge record of round `i + 1`.  Round 1 is the initial
draft (gateway call 0) with its evaluation (call 1); round `i + 1` is the
revision (call `2i + 2`) with its evaluation (call `2i + 3`). -/
def pipelineTrace (resp : Nat → String → String) (user_request : String) :
    Nat → String × Json
  | 0 =>
    let s := resp 0 (STORY_WRITER_PROMPT user_request)
    (s, parse_judge_response (resp 1 (JUDGE_PROMPT s)))
  | i + 1 =>
    let p := pipelineTrace resp user_request i
    let s := resp (2 * i + 2) (revise_prompt p.1 p.2)
    (s, parse_judge_response (resp (2 * i + 3) (JUDGE_PROMPT s)))

/-- The `total_score` produced by the evaluation of round `i` (1-based) on
the trace of `story_pipeline`. -/
def pipeScore (resp : Nat → String → String) (user_request : String) (i : Nat) : Int :=
  get_total_score (pipelineTrace resp user_request (i - 1)).2

/-- The list `[r, r + 1, ..., r + n - 1]` of candidate round indices. -/
def roundList (r : Nat) : Nat → List Nat
  | 0 => []
  | n + 1 => r :: roundList (r + 1) n

/-- The round at which the refinement loop stops, starting from round `r`
with `f` budgeted extra rounds: the first round `≥ r` whose score meets
`min_score`, capped at `r + f`. -/
def stopRound (score : Nat → Int) (min_score : Int) : Nat → Nat → Nat
  | r, 0 => r
  | r, f + 1 => if min_score ≤ score r then r else stopRound score min_score (r + 1) f

/-! Helper lemmas about the brace-locating primitives. -/

lemma pyIndex_eq_none {t : Char} : ∀ {l : List Char}, t ∉ l → pyIndex l t = none := by
  intro l
  induction l with
  | nil => intro _; rfl
  | cons c cs ih =>
    intro h
    simp only [List.mem_cons, not_or] at h
    have hne : ¬c = t := fun hc => h.1 hc.symm
    simp [pyIndex, hne, ih h.2]

lemma pyIndex_isSome {t : Char} : ∀ {l : List Char}, t ∈ l → ∃ n, pyIndex l t = some n := by
  intro l
  induction l with
  | nil => intro h; exact absurd h (List.not_mem_nil t)
  | cons c cs ih =>
    intro h
    by_cases hc : c = t
    · exact ⟨0, by simp [pyIndex, hc]⟩
    · have hm : t ∈ cs := by
        rcases List.mem_cons.mp h with h1 | h2
        · exact absurd h1.symm hc
        · exact h2
      obtain ⟨n, hn⟩ := ih hm
      exact ⟨n + 1, by simp [pyIndex, hc, hn]⟩

lemma pyIndex_append {t : Char} {pre : List Char} (rest : List Char) (h : t ∉ pre) :
    pyIndex (pre ++ t :: rest) t = some pre.length := by
  induction pre with
  | nil => simp [pyIndex]
  | cons c cs ih =>
    simp only [List.mem_cons, not_or] at h
    have hne : ¬c = t := fun hc => h.1 hc.symm
    simp [pyIndex, hne, ih h.2]

lemma pyRfind_eq_none {t : Char} : ∀ {l : List Char}, t ∉ l → pyRfind l t = none := by
  intro l
  induction l with
  | nil => intro _; rfl
  | cons c cs ih =>
    intro h
    simp only [List.mem_cons, not_or] at h
    have hne : ¬c = t := fun hc => h.1 hc.symm
    simp [pyRfind, hne, ih h.2]

lemma pyRfind_append {t : Char} {suf : List Char} (l : List Char) (h : t ∉ suf) :
    pyRfind (l ++ t :: suf) t = some l.length := by
  induction l with
  | nil => simp [pyRfind, pyRfind_eq_none h]
  | cons c cs ih => simp [pyRfind, ih]

/-- The candidate substring taken by `parse_judge_response` on an input of
shape `prefix ++ "\x7b" ++ body ++ "\x7d" ++ suffix` with no brace shifting:
exactly the brace-delimited span. -/
lemma jsonCandidate_extract (pre body suf : List Char)
    (hpre : lbrace ∉ pre) (hsuf : rbrace ∉ suf) :
    jsonCandidate ((pre ++ (lbrace :: body ++ [rbrace]) ++ suf).asString)
      = some ((lbrace :: body ++ [rbrace]).asString) := by
  have htl : ((pre ++ (lbrace :: body ++ [rbrace]) ++ suf).asString).toList
      = pre ++ (lbrace :: body ++ [rbrace]) ++ suf := rfl
  have hidx : pyIndex (pre ++ (lbrace :: body ++ [rbrace]) ++ suf) lbrace
      = some pre.length := by
    have : pre ++ (lbrace :: body ++ [rbrace]) ++ suf
        = pre ++ lbrace :: (body ++ [rbrace] ++ suf) := by simp
    rw [this]
    exact pyIndex_append _ hpre
  have hrf : pyRfind (pre ++ (lbrace :: body ++ [rbrace]) ++ suf) rbrace
      = some (pre.length + (body.length + 1)) := by
    have : pre ++ (lbrace :: body ++ [rbrace]) ++ suf
        = (pre ++ lbrace :: body) ++ rbrace :: suf := by simp
    rw [this, pyRfind_append _ hsuf]
    simp [Nat.add_assoc]
  unfold jsonCandidate
  rw [htl]
  simp only [hidx, hrf]
  have hnat : ((((pre.length + (body.length + 1)) : Nat) : Int) + 1 - ((pre.length : Nat) : Int)).toNat
      = body.length + 2 := by omega
  rw [hnat]
  have hdrop : (pre ++ (lbrace :: body ++ [rbrace]) ++ suf).drop pre.length
      = (lbrace :: body ++ [rbrace]) ++ suf := by
    have : pre ++ (lbrace :: body ++ [rbrace]) ++ suf
        = pre ++ ((lbrace :: body ++ [rbrace]) ++ suf) := by simp
    rw [this, List.drop_left]
  rw [hdrop]
  have hlen : (lbrace :: body ++ [rbrace]).length = body.length + 2 := by simp
  rw [← hlen, List.take_left]

end BedtimeStory

namespace BedtimeStory

/-- C3: every raw input on which parsing fails — no brace pair found (the
candidate extraction yields nothing) or the brace-delimited candidate fails
to parse as JSON — produces exactly the fixed fallback record with all five
sub-scores 0, total_score 0 and the two fixed message lists. -/
theorem parse_failure_gives_fallback (raw : String)
    (h : jsonCandidate raw = none ∨ ∃ cs, jsonCandidate raw = some cs ∧ loads cs = none) :
    parse_judge_response raw =
      Json.obj
        [("clarity", Json.num 0),
         ("age_appropriateness", Json.num 0),
         ("emotional_safety", Json.num 0),
         ("creativity", Json.num 0),
         ("narrative_structure", Json.num 0),
         ("total_score", Json.num 0),
         ("issues", Json.arr [Json.str "Could not parse judge response as JSON."]),
         ("suggested_fixes",
          Json.arr [Json.str "Regenerate the story with clearer structure, simpler language, and explicit moral."])] := by
  rcases h with h | ⟨cs, h1, h2⟩
  · simp [parse_judge_response, h, judgeFallback]
  · simp [parse_judge_response, h1, h2, judgeFallback]

/-- C3 witness: a concrete brace-free input takes the failure path and
returns the fallback record. -/
theorem parse_failure_gives_fallback_witness :
    (jsonCandidate "The judge failed to answer." = none ∨
      ∃ cs, jsonCandidate "The judge failed to answer." = some cs ∧ loads cs = none) ∧
    parse_judge_response "The judge failed to answer." =
      Json.obj
        [("clarity", Json.num 0),
         ("age_appropriateness", Json.num 0),
         ("emotional_safety", Json.num 0),
         ("creativity", Json.num 0),
         ("narrative_structure", Json.num 0),
         ("total_score", Json.num 0),
         ("issues", Json.arr [Json.str "Could not parse judge response as JSON."]),
         ("suggested_fixes",
          Json.arr [Json.str "Regenerate the story with clearer structure, simpler language, and explicit moral."])] :=
  ⟨Or.inl rfl, parse_failure_gives_fallback _ (Or.inl rfl)⟩

/-- C4: on input `prefix ++ "\x7b" ++ body ++ "\x7d" ++ suffix` where the
prefix contains no opening brace and the suffix no closing brace (so the
outermost brace bounds are not shifted), `parse_judge_response` returns
exactly the value obtained by `json.loads` on the brace-delimited span
alone, verbatim. -/
theorem parse_extracts_brace_span (pre body suf : List Char) (j : Json)
    (hpre : lbrace ∉ pre) (hsuf : rbrace ∉ suf)
    (hloads : loads ((lbrace :: body ++ [rbrace]).asString) = some j) :
    parse_judge_response ((pre ++ (lbrace :: body ++ [rbrace]) ++ suf).asString) = j := by
  simp only [parse_judge_response, jsonCandidate_extract pre body suf hpre hsuf, hloads]

/-- C4 witness: concrete prefix/suffix noise around a small JSON object. -/
theorem parse_extracts_brace_span_witness :
    lbrace ∉ "Sure! Here is the JSON: ".toList ∧
    rbrace ∉ " Hope that helps.".toList ∧
    loads ((lbrace :: "\"total_score\": 45".toList ++ [rbrace]).asString)
      = some (Json.obj [("total_score", Json.num 45)]) ∧
    parse_judge_response
        (("Sure! Here is the JSON: ".toList ++
          (lbrace :: "\"total_score\": 45".toList ++ [rbrace]) ++
          " Hope that helps.".toList).asString)
      = Json.obj [("total_score", Json.num 45)] :=
  ⟨by decide, by decide, rfl,
    parse_extracts_brace_span _ _ _ _ (by decide) (by decide) rfl⟩

/-- C8: applying `parse_judge_response` to the fallback record's own issue
string (plain non-JSON text) yields the very same fallback record, whose
issues list indeed holds that string. -/
theorem fallback_idempotent :
    parse_judge_response "Could not parse judge response as JSON." = judgeFallback ∧
    pyGetList judgeFallback "issues" = [Json.str "Could not parse judge response as JSON."] :=
  ⟨rfl, rfl⟩

/-- C9: `parse_judge_response` is total: every input yields either the
fallback record or the verbatim result of parsing the brace-delimited
candidate; in particular an input with an opening brace but no closing
brace, or whose last closing brace precedes the first opening brace,
yields an empty/truncated candidate whose parse failure gives the
fallback. -/
theorem parse_judge_response_total (raw : String) :
    (parse_judge_response raw = judgeFallback ∨
      ∃ cs j, jsonCandidate raw = some cs ∧ loads cs = some j ∧ parse_judge_response raw = j) ∧
    (lbrace ∈ raw.toList → rbrace ∉ raw.toList → parse_judge_response raw = judgeFallback) ∧
    (∀ s e, pyIndex raw.toList lbrace = some s → pyRfind raw.toList rbrace = some e →
      e < s → parse_judge_response raw = judgeFallback) := by
  refine ⟨?_, ?_, ?_⟩
  · cases h1 : jsonCandidate raw with
    | none => exact Or.inl (by simp [parse_judge_response, h1])
    | some cs =>
      cases h2 : loads cs with
      | none => exact Or.inl (by simp [parse_judge_response, h1, h2])
      | some j => exact Or.inr ⟨cs, j, rfl, h2, by simp [parse_judge_response, h1, h2]⟩
  · intro hin hout
    obtain ⟨s, hs⟩ := pyIndex_isSome hin
    have h0 : ((-1 : Int) + 1 - ((s : Nat) : Int)).toNat = 0 := by omega
    simp only [parse_judge_response, jsonCandidate, hs, pyRfind_eq_none hout, h0,
      List.take_zero]
    rfl
  · intro s e hs he hlt
    have h0 : (((e : Nat) : Int) + 1 - ((s : Nat) : Int)).toNat = 0 := by omega
    simp only [parse_judge_response, jsonCandidate, hs, he, h0, List.take_zero]
    rfl

/-- C9 witness: a concrete input holding an opening brace but no closing
brace falls back. -/
theorem parse_judge_response_total_witness :
    lbrace ∈ "score: \x7b 40".toList ∧ rbrace ∉ "score: \x7b 40".toList ∧
    parse_judge_response "score: \x7b 40" = judgeFallback :=
  ⟨by decide, by decide,
    (parse_judge_response_total "score: \x7b 40").2.1 (by decide) (by decide)⟩

/-- C5: in the human-feedback loop, an input that is empty after stripping
terminates the loop with the current pair; every non-empty input triggers
exactly one rewrite gateway call followed by exactly one evaluation,
replacing the current pair (two gateway calls, one evaluation, no round
cap and no score gate); in particular one non-empty feedback followed by
an empty line yields exactly one rewrite+evaluate cycle and then
termination reporting that cycle's story and record. -/
theorem feedback_loop_behavior (w : World) (s : String) (j : Json) (rest : List String)
    (fb : String) (hfb : pyStrip fb = "")
    (fb2 : String) (hfb2 : ¬pyStrip fb2 = "") :
    feedback_loop w (fb :: rest) s j = some (s, j, w) ∧
    (∀ rest2, feedback_loop w (fb2 :: rest2) s j =
      feedback_loop ⟨w.responses, w.calls + 2, w.evals + 1, w.revs⟩ rest2
        (w.responses w.calls (USER_FEEDBACK_PROMPT s (pyStrip fb2)))
        (parse_judge_response (w.responses (w.calls + 1)
          (JUDGE_PROMPT (w.responses w.calls (USER_FEEDBACK_PROMPT s (pyStrip fb2))))))) ∧
    feedback_loop w [fb2, fb] s j =
      some (w.responses w.calls (USER_FEEDBACK_PROMPT s (pyStrip fb2)),
            parse_judge_response (w.responses (w.calls + 1)
              (JUDGE_PROMPT (w.responses w.calls (USER_FEEDBACK_PROMPT s (pyStrip fb2))))),
            ⟨w.responses, w.calls + 2, w.evals + 1, w.revs⟩) := by
  refine ⟨by simp [feedback_loop, hfb], ?_, ?_⟩
  · intro rest2
    simp [feedback_loop, hfb2, call_model, judge_story]
  · simp [feedback_loop, hfb2, hfb, call_model, judge_story]

/-- C5 witness: feedback "make it funnier" followed by an empty line runs
exactly one rewrite+evaluate cycle and terminates with that cycle's pair. -/
theorem feedback_loop_behavior_witness :
    pyStrip "" = "" ∧ ¬pyStrip "make it funnier" = "" ∧
    feedback_loop ⟨(fun _ _ => "text"), 0, 0, 0⟩ ["make it funnier", ""] "story0" judgeFallback =
      some ("text", parse_judge_response "text", ⟨(fun _ _ => "text"), 2, 1, 0⟩) :=
  ⟨rfl, by decide,
    (feedback_loop_behavior ⟨(fun _ _ => "text"), 0, 0, 0⟩ "story0" judgeFallback []
      "" rfl "make it funnier" (by decide)).2.2⟩

/-- C6: `revise_story` flattens the issues and suggested fixes into one
bullet line per entry, an empty list rendering as the literal placeholder
line: with `issues = ["too long"]` the issues block is `- too long`, with
`suggested_fixes = []` the fixes block is the literal `- (no fixes
listed)`, and the revision prompt embeds exactly these blocks. -/
theorem revision_flattening (w : World) (story : String) (j : Json) :
    (pyGet j "issues" = some (Json.arr [Json.str "too long"]) →
      pyOrStr (issues_text j) "- (no issues listed)" = "- too long") ∧
    (pyGet j "suggested_fixes" = some (Json.arr []) →
      pyOrStr (fixes_text j) "- (no fixes listed)" = "- (no fixes listed)") ∧
    (∀ ss : List String, pyGet j "issues" = some (Json.arr (ss.map Json.str)) →
      issues_text j = String.intercalate "\n" (ss.map (fun i => "- " ++ i))) ∧
    (pyGet j "issues" = some (Json.arr [Json.str "too long"]) →
      pyGet j "suggested_fixes" = some (Json.arr []) →
      revise_prompt story j = REVISION_PROMPT story "- too long" "- (no fixes listed)") ∧
    (revise_story w story j).1 = w.responses w.calls (revise_prompt story j) := by
  refine ⟨?_, ?_, ?_, ?_, rfl⟩
  · intro h
    simp only [issues_text, pyGetList, h]
    rfl
  · intro h
    simp only [fixes_text, pyGetList, h]
    rfl
  · intro ss h
    simp only [issues_text, pyGetList, h, List.map_map]
    rfl
  · intro h1 h2
    simp only [revise_prompt, issues_text, fixes_text, pyGetList, h1, h2]
    rfl

/-- C6 witness: a concrete record with `issues = ["too long"]` and
`suggested_fixes = []` renders the two blocks exactly as claimed. -/
theorem revision_flattening_witness :
    revise_prompt "once upon a time"
        (Json.obj [("issues", Json.arr [Json.str "too long"]), ("suggested_fixes", Json.arr [])])
      = REVISION_PROMPT "once upon a time" "- too long" "- (no fixes listed)" :=
  (revision_flattening ⟨(fun _ _ => ""), 0, 0, 0⟩ "once upon a time"
    (Json.obj [("issues", Json.arr [Json.str "too long"]), ("suggested_fixes", Json.arr [])])).2.2.2.1
    rfl rfl

/-- C7: consumers of an evaluation record read optional fields with
defaults and never fail on a missing field: a record without
`total_score` gates as score 0, which (for a positive threshold and
remaining budget) forces a further revise/evaluate round; records without
`issues`/`suggested_fixes` read as empty lists, rendering the placeholder
bullet blocks in the revision prompt. -/
theorem defensive_reads (f : Nat) (w : World) (min_score : Int) (max_rounds : Nat)
    (story : String) (j : Json) (r : Nat)
    (hmiss : pyGet j "total_score" = none) (hmin : 0 < min_score) (hr : r < max_rounds) :
    get_total_score j = 0 ∧
    story_pipeline_loop (f + 1) w min_score max_rounds story j r =
      story_pipeline_loop f
        (judge_story (revise_story w story j).2 (revise_story w story j).1).2
        min_score max_rounds (revise_story w story j).1
        (judge_story (revise_story w story j).2 (revise_story w story j).1).1 (r + 1) ∧
    (∀ key, pyGet j key = none → pyGetList j key = []) ∧
    (pyGet j "issues" = none → pyGet j "suggested_fixes" = none →
      revise_prompt story j = REVISION_PROMPT story "- (no issues listed)" "- (no fixes listed)") := by
  have h0 : get_total_score j = 0 := by simp [get_total_score, hmiss]
  refine ⟨h0, ?_, ?_, ?_⟩
  · simp only [story_pipeline_loop]
    rw [if_pos ⟨by rw [h0]; exact hmin, hr⟩]
  · intro key hk
    simp [pyGetList, hk]
  · intro h1 h2
    simp only [revise_prompt, issues_text, fixes_text, pyGetList, h1, h2]
    rfl

/-- C7 witness: the empty record at round 1 of a 3-round budget with the
default threshold forces a revision round. -/
theorem defensive_reads_witness :
    get_total_score (Json.obj []) = 0 ∧
    story_pipeline_loop 2 ⟨(fun _ _ => ""), 2, 1, 0⟩ 40 3 "s" (Json.obj []) 1 =
      story_pipeline_loop 1
        (judge_story (revise_story ⟨(fun _ _ => ""), 2, 1, 0⟩ "s" (Json.obj [])).2
          (revise_story ⟨(fun _ _ => ""), 2, 1, 0⟩ "s" (Json.obj [])).1).2
        40 3 (revise_story ⟨(fun _ _ => ""), 2, 1, 0⟩ "s" (Json.obj [])).1
        (judge_story (revise_story ⟨(fun _ _ => ""), 2, 1, 0⟩ "s" (Json.obj [])).2
          (revise_story ⟨(fun _ _ => ""), 2, 1, 0⟩ "s" (Json.obj [])).1).1 2 := by
  have h := defensive_reads 1 ⟨(fun _ _ => ""), 2, 1, 0⟩ 40 3 "s" (Json.obj []) 1
    rfl (by decide) (by decide)
  exact ⟨h.1, h.2.1⟩

/-- A pair (story, record) together with a world is properly judged when
the record and the world are exactly the output of `judge_story` run on
that same story from some earlier world. -/
def judgedPair (story : String) (j : Json) (w : World) : Prop :=
  ∃ w', judge_story w' story = (j, w)

lemma story_pipeline_loop_judged :
    ∀ (f : Nat) (w : World) (min_score : Int) (max_rounds : Nat)
      (story : String) (jd : Json) (r : Nat), judgedPair story jd w →
      judgedPair (story_pipeline_loop f w min_score max_rounds story jd r).1
        (story_pipeline_loop f w min_score max_rounds story jd r).2.1
        (story_pipeline_loop f w min_score max_rounds story jd r).2.2 := by
  intro f
  induction f with
  | zero => intro w min_score max_rounds story jd r h; exact h
  | succ f ih =>
    intro w min_score max_rounds story jd r h
    by_cases hg : get_total_score jd < min_score ∧ r < max_rounds
    · simp only [story_pipeline_loop, if_pos hg]
      exact ih _ _ _ _ _ _ ⟨(revise_story w story jd).2, rfl⟩
    · simp only [story_pipeline_loop, if_neg hg]
      exact h

lemma feedback_loop_judged :
    ∀ (inputs : List String) (w : World) (s : String) (j : Json)
      (out : String × Json × World), judgedPair s j w →
      feedback_loop w inputs s j = some out →
      judgedPair out.1 out.2.1 out.2.2 := by
  intro inputs
  induction inputs with
  | nil => intro w s j out h heq; exact absurd heq (by simp [feedback_loop])
  | cons fb rest ih =>
    intro w s j out h heq
    by_cases hfb : pyStrip fb = ""
    · simp only [feedback_loop, hfb, if_pos rfl] at heq
      cases heq
      exact h
    · simp only [feedback_loop, if_neg hfb] at heq
      exact ih _ _ _ _ ⟨(call_model w (USER_FEEDBACK_PROMPT s (pyStrip fb)) 900 (7 / 10)).2, rfl⟩ heq

/-- C10: pairing invariant — the (story, record) pair returned by
`story_pipeline`, and the current pair after any terminating run of the
human-feedback loop started from a properly judged pair, is always the
output of `judge_story` applied to that very story; the controller never
pairs a story with the evaluation of a different draft. -/
theorem pairing_invariant :
    (∀ (w : World) (u : String) (min_score : Int) (max_rounds : Nat),
      judgedPair (story_pipeline w u min_score max_rounds).1
        (story_pipeline w u min_score max_rounds).2.1
        (story_pipeline w u min_score max_rounds).2.2) ∧
    (∀ (w : World) (inputs : List String) (s : String) (j : Json)
      (out : String × Json × World), judgedPair s j w →
      feedback_loop w inputs s j = some out →
      judgedPair out.1 out.2.1 out.2.2) := by
  constructor
  · intro w u min_score max_rounds
    exact story_pipeline_loop_judged _ _ _ _ _ _ _
      ⟨(generate_initial_story w u).2, rfl⟩
  · exact fun w inputs s j out h heq => feedback_loop_judged inputs w s j out h heq

/-- C10 witness: the invariant applied along a concrete pipeline run fed
into a concrete terminating feedback-loop run. -/
theorem pairing_invariant_witness :
    judgedPair "" judgeFallback ⟨(fun _ _ => ""), 2, 1, 0⟩ :=
  pairing_invariant.2 ⟨(fun _ _ => ""), 2, 1, 0⟩ [""] "" judgeFallback
    ("", judgeFallback, ⟨(fun _ _ => ""), 2, 1, 0⟩)
    (pairing_invariant.1 ⟨(fun _ _ => ""), 0, 0, 0⟩ "x" 40 1) rfl

/-! Counting the evaluation rounds of the refinement loop. -/

lemma stopRound_le (score : Nat → Int) (min_score : Int) :
    ∀ (f r : Nat), stopRound score min_score r f ≤ r + f := by
  intro f
  induction f with
  | zero => intro r; simp [stopRound]
  | succ f ih =>
    intro r
    by_cases h : min_score ≤ score r
    · simp [stopRound, h]
    · simp only [stopRound, if_neg h]
      have := ih (r + 1)
      omega

lemma find?_score_cons (score : Nat → Int) (min_score : Int) (a : Nat) (l : List Nat) :
    List.find? (fun i => decide (min_score ≤ score i)) (a :: l)
      = if min_score ≤ score a then some a
        else List.find? (fun i => decide (min_score ≤ score i)) l := by
  rw [List.find?_cons]
  by_cases h : min_score ≤ score a
  · simp [h]
  · simp [h]

lemma stopRound_eq_find (score : Nat → Int) (min_score : Int) :
    ∀ (f r : Nat), stopRound score min_score r f
      = (match List.find? (fun i => decide (min_score ≤ score i)) (roundList r (f + 1)) with
         | some k => min k (r + f)
         | none => r + f) := by
  intro f
  induction f with
  | zero =>
    intro r
    have hcons : roundList r 1 = [r] := rfl
    rw [hcons, find?_score_cons]
    by_cases h : min_score ≤ score r
    · rw [if_pos h]
      show r = min r (r + 0)
      exact (Nat.min_eq_left (by omega)).symm
    · rw [if_neg h, List.find?_nil]
      rfl
  | succ f ih =>
    intro r
    have hcons : roundList r (f + 1 + 1) = r :: roundList (r + 1) (f + 1) := rfl
    rw [hcons, find?_score_cons]
    by_cases h : min_score ≤ score r
    · have hs : stopRound score min_score r (f + 1) = r := by simp [stopRound, h]
      rw [hs, if_pos h]
      show r = min r (r + (f + 1))
      exact (Nat.min_eq_left (by omega)).symm
    · have hs : stopRound score min_score r (f + 1) = stopRound score min_score (r + 1) f := by
        simp [stopRound, h]
      rw [hs, ih (r + 1), if_neg h]
      have hse : r + 1 + f = r + (f + 1) := by omega
      rw [hse]

/-- One full run of the refinement loop, entered at round `r` with the
round-`r` trace pair and the corresponding world (gateway calls `2r`,
`r` evaluations, `r - 1` revisions done): the loop returns the trace pair
and world of the stopping round. -/
lemma story_pipeline_loop_run (resp : Nat → String → String) (u : String) (min_score : Int) :
    ∀ (fuel r max_rounds : Nat), 1 ≤ r → r ≤ max_rounds → max_rounds ≤ r + fuel →
      story_pipeline_loop fuel ⟨resp, 2 * r, r, r - 1⟩ min_score max_rounds
          (pipelineTrace resp u (r - 1)).1 (pipelineTrace resp u (r - 1)).2 r
        = ((pipelineTrace resp u (stopRound (pipeScore resp u) min_score r (max_rounds - r) - 1)).1,
           (pipelineTrace resp u (stopRound (pipeScore resp u) min_score r (max_rounds - r) - 1)).2,
           ⟨resp, 2 * stopRound (pipeScore resp u) min_score r (max_rounds - r),
            stopRound (pipeScore resp u) min_score r (max_rounds - r),
            stopRound (pipeScore resp u) min_score r (max_rounds - r) - 1⟩) := by
  intro fuel
  induction fuel with
  | zero =>
    intro r max_rounds h1 h2 h3
    have h4 : max_rounds - r = 0 := by omega
    rw [h4]
    simp only [stopRound, story_pipeline_loop]
  | succ fuel ih =>
    intro r max_rounds h1 h2 h3
    obtain ⟨r0, rfl⟩ : ∃ r0, r = r0 + 1 := ⟨r - 1, by omega⟩
    set r := r0 + 1 with hr
    by_cases hscore : min_score ≤ pipeScore resp u r
    · have hE : stopRound (pipeScore resp u) min_score r (max_rounds - r) = r := by
        cases hmr : max_rounds - r with
        | zero => rfl
        | succ k => simp [stopRound, hscore]
      rw [hE]
      simp only [story_pipeline_loop]
      rw [if_neg (fun hc => absurd hc.1 (not_lt.mpr hscore))]
    · by_cases hlt : r < max_rounds
      · have hE : stopRound (pipeScore resp u) min_score r (max_rounds - r)
            = stopRound (pipeScore resp u) min_score (r + 1) (max_rounds - (r + 1)) := by
          have hk : max_rounds - r = (max_rounds - (r + 1)) + 1 := by omega
          rw [hk]
          simp [stopRound, hscore]
        rw [hE]
        simp only [story_pipeline_loop]
        rw [if_pos ⟨lt_of_not_le hscore, hlt⟩]
        exact ih (r + 1) max_rounds (by omega) hlt (by omega)
      · have hrm : r = max_rounds := by omega
        have h4 : max_rounds - r = 0 := by omega
        rw [h4]
        simp only [stopRound, story_pipeline_loop]
        rw [if_neg (fun hc => absurd hc.2 hlt)]

/-- C1 (amended with `1 ≤ max_rounds`): for every response oracle, user
request, `min_score` and positive `max_rounds`, `story_pipeline` performs
exactly `min(k, max_rounds)` `judge_story` evaluation calls, where `k` is
the first 1-based round index whose evaluation scores at least
`min_score`, or `max_rounds` when no round within the cap does; the
number of revise/evaluate cycles is the evaluation count minus one, hence
at most `max_rounds - 1`. -/
theorem pipeline_eval_count (resp : Nat → String → String) (u : String) (min_score : Int)
    (max_rounds : Nat) (hmax : 1 ≤ max_rounds) :
    (story_pipeline ⟨resp, 0, 0, 0⟩ u min_score max_rounds).2.2.evals
      = (match List.find? (fun i => decide (min_score ≤ pipeScore resp u i))
            (roundList 1 max_rounds) with
         | some k => min k max_rounds
         | none => max_rounds) ∧
    (story_pipeline ⟨resp, 0, 0, 0⟩ u min_score max_rounds).2.2.revs
      = (story_pipeline ⟨resp, 0, 0, 0⟩ u min_score max_rounds).2.2.evals - 1 ∧
    (story_pipeline ⟨resp, 0, 0, 0⟩ u min_score max_rounds).2.2.evals ≤ max_rounds := by
  have hpipe : story_pipeline ⟨resp, 0, 0, 0⟩ u min_score max_rounds
      = ((pipelineTrace resp u
            (stopRound (pipeScore resp u) min_score 1 (max_rounds - 1) - 1)).1,
         (pipelineTrace resp u
            (stopRound (pipeScore resp u) min_score 1 (max_rounds - 1) - 1)).2,
         ⟨resp, 2 * stopRound (pipeScore resp u) min_score 1 (max_rounds - 1),
          stopRound (pipeScore resp u) min_score 1 (max_rounds - 1),
          stopRound (pipeScore resp u) min_score 1 (max_rounds - 1) - 1⟩) :=
    story_pipeline_loop_run resp u min_score max_rounds 1 max_rounds (le_refl 1) hmax (by omega)
  rw [hpipe]
  refine ⟨?_, rfl, ?_⟩
  · show stopRound (pipeScore resp u) min_score 1 (max_rounds - 1) = _
    rw [stopRound_eq_find]
    have h1 : (max_rounds - 1) + 1 = max_rounds := by omega
    have h2 : 1 + (max_rounds - 1) = max_rounds := by omega
    rw [h1, h2]
  · show stopRound (pipeScore resp u) min_score 1 (max_rounds - 1) ≤ max_rounds
    have := stopRound_le (pipeScore resp u) min_score (max_rounds - 1) 1
    omega

/-- C1 witness: with the default policy (`min_score = 40`,
`max_rounds = 3`) and an oracle whose replies never parse, every round
scores 0 and the loop performs all three evaluations. -/
theorem pipeline_eval_count_witness :
    1 ≤ 3 ∧
    ((story_pipeline ⟨(fun _ _ => "no json"), 0, 0, 0⟩ "a pony" 40 3).2.2.evals
      = (match List.find? (fun i => decide ((40 : Int) ≤ pipeScore (fun _ _ => "no json") "a pony" i))
            (roundList 1 3) with
         | some k => min k 3
         | none => 3) ∧
    (story_pipeline ⟨(fun _ _ => "no json"), 0, 0, 0⟩ "a pony" 40 3).2.2.revs
      = (story_pipeline ⟨(fun _ _ => "no json"), 0, 0, 0⟩ "a pony" 40 3).2.2.evals - 1 ∧
    (story_pipeline ⟨(fun _ _ => "no json"), 0, 0, 0⟩ "a pony" 40 3).2.2.evals ≤ 3) :=
  ⟨by decide, pipeline_eval_count (fun _ _ => "no json") "a pony" 40 3 (by decide)⟩

/-- C1 counterexample: at `max_rounds = 0` the code still performs the one
initial evaluation, while the claimed count `min(k, max_rounds)` is 0, so
the claim fails without the `1 ≤ max_rounds` amendment. -/
theorem pipeline_eval_count_cex :
    ¬((story_pipeline ⟨(fun _ _ => ""), 0, 0, 0⟩ "x" 40 0).2.2.evals
      = (match List.find? (fun i => decide ((40 : Int) ≤ pipeScore (fun _ _ => "") "x" i))
            (roundList 1 0) with
         | some k => min k 0
         | none => 0)) := by
  intro h
  simp only [roundList, List.find?] at h
  exact absurd h (by decide)

/-- The concrete response oracle of the C2 scenario: evaluations (gateway
calls 1, 3, 5) score 25, 30 and 20; the other calls return draft text
tagged with the call index. -/
def respC2 : Nat → String → String := fun n _ =>
  if n = 1 then "\x7b\"total_score\": 25\x7d"
  else if n = 3 then "\x7b\"total_score\": 30\x7d"
  else if n = 5 then "\x7b\"total_score\": 20\x7d"
  else "draft" ++ toString n

/-- C2: in the scenario `min_score = 40`, `max_rounds = 3` with round
scores 25, 30, 20, exactly 3 evaluation calls occur and the returned pair
is the round-3 pair — story of gateway call 4, evaluation of gateway call
5 with total_score 20 — even though round 2 scored higher (30): the
controller keeps the last produced pair and never rolls back. -/
theorem pipeline_keeps_last_pair :
    (story_pipeline ⟨respC2, 0, 0, 0⟩ "a story" 40 3).2.2.evals = 3 ∧
    get_total_score (story_pipeline ⟨respC2, 0, 0, 0⟩ "a story" 40 3).2.1 = 20 ∧
    (story_pipeline ⟨respC2, 0, 0, 0⟩ "a story" 40 3).1 = "draft4" ∧
    (story_pipeline ⟨respC2, 0, 0, 0⟩ "a story" 40 3).2.1
      = parse_judge_response (respC2 5 (JUDGE_PROMPT "draft4")) ∧
    get_total_score (pipelineTrace respC2 "a story" 1).2 = 30 ∧
    get_total_score (pipelineTrace respC2 "a story" 0).2 = 25 :=
  ⟨rfl, rfl, rfl, rfl, rfl, rfl⟩

end BedtimeStory

